import Mathlib

/-!
Formal model of `custom_components/bluetti_bt/coordinator.py`.

The coordinator polls a Bluetti battery device over BLE.  Two pieces of code
carry the logic verified here:

* `_notification_handler` (lines 129-153): the response correlator.  It is a
  pure state transformer once we make the instance fields explicit, so we
  embed it as a function from a `CoordState` and a notification chunk to a
  new `CoordState` together with the Python exception the handler body may
  raise (`IndexError` from `notify_response[2]`, `AttributeError` from a
  `None` current command).

* `_async_update_data` (lines 47-127): the poll-cycle orchestrator.  Its
  interactions with the outside world (device discovery, connect, subscribe,
  per-command request/response outcome) are modelled by an `Env` oracle; the
  `try`/`except`/`finally` structure is translated with `Except` values so
  that which exceptions are caught where is part of the model.
  `async_update_data` covers the body and the `except` clauses with the
  cleanup call succeeding; `async_update_data_total` adds the `finally`'s
  `await client.disconnect()` (line 124) being itself fallible: an exception
  raised in a `finally` replaces the in-flight return value or exception and
  is not covered by the same `try`'s `except` clauses, so it escapes the
  function.

Bytes are modelled as `List Nat` (byte values).
-/

set_option linter.unusedVariables false

namespace BluettiBT

/-- Byte strings, as lists of byte values. -/
abbrev Bytes := List Nat

/-- A polling command descriptor, as used by the coordinator: the fields of
`bluetti_mqtt`'s command objects the coordinator reads (`starting_address`,
`response_size()`, `is_valid_response()`, `is_exception_response()`). -/
structure Command where
  starting_address : Nat
  response_size : Nat
  is_valid_response : Bytes → Bool
  is_exception_response : Bytes → Bool

/-- Errors a settled future can carry (`BadConnectionError`, `ParseError`,
`ModbusError`). The Modbus error carries the command (the f-string embeds
`self.current_command`) and the error-code byte `self.notify_response[2]`. -/
inductive Err where
  | badConnection
  | parseError
  | modbusError (cmd : Command) (code : Nat)

/-- The one-shot result slot (`self.notify_future`): pending, resolved with
bytes, or failed with an error. -/
inductive FutureState where
  | pending
  | resolvedBytes (bs : Bytes)
  | failed (e : Err)

/-- `future.done()`: true once the slot is settled. -/
def FutureState.done : FutureState → Bool
  | .pending => false
  | _ => true

/-- The coordinator instance fields the notification handler touches:
`notify_future`, `current_command`, `notify_response`. -/
structure CoordState where
  notify_future : Option FutureState
  current_command : Option Command
  notify_response : Bytes

/-- Python exceptions the handler body itself can raise. -/
inductive PyErr where
  | indexError
  | attributeError
deriving DecidableEq

/-- The bytes of `b"AT+NAME?\r"`. -/
def AT_NAME : Bytes := [65, 84, 43, 78, 65, 77, 69, 63, 13]

/-- The bytes of `b"AT+ADV?\r"`. -/
def AT_ADV : Bytes := [65, 84, 43, 65, 68, 86, 63, 13]

/-- `_notification_handler` (coordinator.py lines 129-153), as a state
transformer.  Returns the new state and the exception the handler raises,
if any (`none` = normal return).  Mutations made before a raise persist,
as they do on the Python instance. -/
def notification_handler (s : CoordState) (data : Bytes) : CoordState × Option PyErr :=
  match s.notify_future with
  | none => (s, none)
  | some fut =>
    if fut.done then (s, none)
    else if data = AT_NAME ∨ data = AT_ADV then
      ({ s with notify_future := some (.failed .badConnection) }, none)
    else
      let resp := s.notify_response ++ data
      match s.current_command with
      | none => ({ s with notify_response := resp }, some .attributeError)
      | some cmd =>
        if resp.length = cmd.response_size then
          if cmd.is_valid_response resp then
            ({ s with notify_response := resp,
                      notify_future := some (.resolvedBytes resp) }, none)
          else
            ({ s with notify_response := resp,
                      notify_future := some (.failed .parseError) }, none)
        else if cmd.is_exception_response resp then
          match resp[2]? with
          | some code =>
            ({ s with notify_response := resp,
                      notify_future := some (.failed (.modbusError cmd code)) }, none)
          | none => ({ s with notify_response := resp }, some .indexError)
        else
          ({ s with notify_response := resp }, none)

/-- The correlator state right after lines 79-81 prepare a request:
a fresh pending future, the active command, an empty accumulator. -/
def freshState (cmd : Command) : CoordState :=
  { notify_future := some .pending, current_command := some cmd, notify_response := [] }

/-- Deliver a sequence of notification chunks to the handler in order.
An exception escaping the handler is swallowed by the event loop, so
delivery of later chunks continues from the mutated state. -/
def feedChunks (s : CoordState) (chunks : List Bytes) : CoordState :=
  chunks.foldl (fun st c => (notification_handler st c).1) s

/-! ## Poll-cycle orchestrator (`_async_update_data`, lines 47-127) -/

/-- Python exceptions flowing through the `try`/`except` structure of
`_async_update_data`: the taxonomy the source imports and handles
(`TimeoutError`, `ParseError`, `ModbusError`, `BadConnectionError`,
`BleakError`). -/
inductive PyExn where
  | timeoutError
  | parseError
  | modbusError
  | badConnectionError
  | bleakError
deriving DecidableEq

/-- The outcome the environment delivers for one command iteration of the
polling loop (lines 77-116): either the response resolves, parses and yields
decoded fields, or one of the exception paths fires.  `outerTimeout` is the
cycle-level `async_timeout.timeout(15)` expiring during this iteration. -/
inductive PerCmd where
  | success (fields : List (String × Nat))
  | respTimeout
  | parseErr
  | modbusErr
  | badConn
  | bleakWriteErr
  | outerTimeout
deriving DecidableEq

/-- Outcome of `client.connect()` / `client.start_notify(...)`. -/
inductive ConnStep where
  | connOk
  | connBleakErr
  | connOuterTimeout
deriving DecidableEq

/-- The oracle for one run of `_async_update_data`: whether discovery finds
the device, how connect and subscribe go, and the outcome of each command
iteration (positionally matching `polling_commands`). -/
structure Env where
  device_available : Bool
  connect : ConnStep
  subscribe : ConnStep
  outcomes : List PerCmd

/-- The part of `self.bluetti_device` the update loop reads. -/
structure DeviceModel where
  polling_commands : List Command

/-- The `parsed_data` dict: key/value pairs in insertion order. -/
abbrev Snapshot := List (String × Nat)

/-- Write one key: overwrite in place if present, else append
(Python dict assignment semantics). -/
def setKey (d : Snapshot) (kv : String × Nat) : Snapshot :=
  if d.any (fun p => p.1 = kv.1) then
    d.map (fun p => if p.1 = kv.1 then kv else p)
  else d ++ [kv]

/-- `parsed_data.update(parsed)`: write every pair of `new` into `d`. -/
def dictUpdate (d new : Snapshot) : Snapshot :=
  new.foldl setKey d

/-- The body of one loop iteration after the request is written (lines
90-103): the environment outcome either extends `parsed_data` or raises. -/
def command_body (out : PerCmd) (acc : Snapshot) : Except PyExn Snapshot :=
  match out with
  | .success fields => .ok (dictUpdate acc fields)
  | .respTimeout => .error .timeoutError
  | .parseErr => .error .parseError
  | .modbusErr => .error .modbusError
  | .badConn => .error .badConnectionError
  | .bleakWriteErr => .error .bleakError
  | .outerTimeout => .ok acc

/-- The per-command `except` clauses (lines 105-116): `TimeoutError`,
`ParseError`, `ModbusError`, `BadConnectionError` and `BleakError` are all
caught and the loop continues with `parsed_data` unchanged; anything else
would propagate. -/
def inner_catch (r : Except PyExn Snapshot) (acc : Snapshot) : Except PyExn Snapshot :=
  match r with
  | .ok a => .ok a
  | .error .timeoutError => .ok acc
  | .error .parseError => .ok acc
  | .error .modbusError => .ok acc
  | .error .badConnectionError => .ok acc
  | .error .bleakError => .ok acc

/-- The `for command in self.bluetti_device.polling_commands` loop (lines
76-116).  Each iteration first re-initialises the correlator fields (lines
79-81) and writes the request; returns the final correlator state, the
number of requests written, and either the accumulated `parsed_data` or the
exception escaping the loop (the cycle-level timeout surfaces as
`TimeoutError` at the `async with` boundary). -/
def run_commands : List (Command × PerCmd) → CoordState → Snapshot →
    CoordState × Nat × Except PyExn Snapshot
  | [], s, acc => (s, 0, .ok acc)
  | (cmd, out) :: rest, s, acc =>
    let s1 : CoordState :=
      { notify_future := some .pending, current_command := some cmd,
        notify_response := [] }
    match out with
    | .outerTimeout => (s1, 1, .error .timeoutError)
    | o =>
      match inner_catch (command_body o acc) acc with
      | .ok acc2 =>
        let r := run_commands rest s1 acc2
        (r.1, r.2.1 + 1, r.2.2)
      | .error e => (s1, 1, .error e)

/-- The body of the outer `try` (lines 68-116): connect, subscribe, then the
command loop. -/
def try_block (env : Env) (dev : DeviceModel) (s : CoordState) :
    CoordState × Nat × Except PyExn Snapshot :=
  match env.connect with
  | .connOuterTimeout => (s, 0, .error .timeoutError)
  | .connBleakErr => (s, 0, .error .bleakError)
  | .connOk =>
    match env.subscribe with
    | .connOuterTimeout => (s, 0, .error .timeoutError)
    | .connBleakErr => (s, 0, .error .bleakError)
    | .connOk => run_commands (dev.polling_commands.zip env.outcomes) s []

/-- Observable summary of one `_async_update_data` run: the value returned
to the caller (or the exception it would raise), the final correlator
state, and how many `connect`, `disconnect` and `write_gatt_char` calls
were made. -/
structure RunOut where
  result : Except PyExn (Option Snapshot)
  state : CoordState
  connect_attempts : Nat
  disconnects : Nat
  requests : Nat

/-- `_async_update_data` (lines 47-127), with the cleanup `disconnect` call
itself succeeding (its own possible failure is layered on in
`async_update_data_total`).  Early returns: no BLE device (line 56), no
recognised device model (line 60).  Otherwise the client is created, the
`try` body runs, the outer `except TimeoutError` (line 117) and
`except BleakError` (line 120) map those failures to `None`, and the
`finally` (line 123) invokes `disconnect` exactly once on every such path. -/
def async_update_data (env : Env) (bluetti_device : Option DeviceModel)
    (s : CoordState) : RunOut :=
  if env.device_available = false then
    { result := .ok none, state := s, connect_attempts := 0, disconnects := 0,
      requests := 0 }
  else
    match bluetti_device with
    | none =>
      { result := .ok none, state := s, connect_attempts := 0, disconnects := 0,
        requests := 0 }
    | some dev =>
      let r := try_block env dev s
      let caught : Except PyExn (Option Snapshot) :=
        match r.2.2 with
        | .ok snap => .ok (some snap)
        | .error .timeoutError => .ok none
        | .error .bleakError => .ok none
        | .error e => .error e
      { result := caught, state := r.1, connect_attempts := 1, disconnects := 1,
        requests := r.2.1 }

/-- `_async_update_data` (lines 47-127) in full, including the fallibility
of the `finally`'s `await client.disconnect()` (line 124): `disconnect_ok`
says whether that call succeeds.  The `finally` runs exactly when the
client handle was created (one disconnect invocation); if the call raises a
`BleakError` there, it replaces whatever the `try`/`except` structure was
about to return or raise — the `except` clauses of the same `try` do not
cover the `finally` — and propagates to the caller. -/
def async_update_data_total (env : Env) (disconnect_ok : Bool)
    (bluetti_device : Option DeviceModel) (s : CoordState) : RunOut :=
  let r := async_update_data env bluetti_device s
  if disconnect_ok = false ∧ r.disconnects = 1 then
    { r with result := .error .bleakError }
  else r

/-- The fields contributed by the commands that succeed, in order: what the
loop's `parsed_data` accumulates when no cycle-level timeout interrupts. -/
def snapOf : List PerCmd → Snapshot → Snapshot
  | [], acc => acc
  | .success fields :: rest, acc => snapOf rest (dictUpdate acc fields)
  | _ :: rest, acc => snapOf rest acc

/-! ## Concrete sample commands and environments -/

/-- Sample command: 4-byte response, every full-length buffer valid, no
buffer exception-shaped. -/
def cmdW : Command := ⟨0, 4, fun _ => true, fun _ => false⟩

/-- Sample command whose exception predicate holds exactly on 3-byte
buffers (mimicking a short Modbus error frame check). -/
def cmdX : Command := ⟨0, 4, fun _ => true, fun b => b.length == 3⟩

/-- Sample command whose exception predicate holds only on buffers of at
least 3 bytes. -/
def cmdG : Command := ⟨0, 5, fun _ => true, fun b => decide (3 ≤ b.length)⟩

/-- Sample command whose exception predicate accepts even very short
buffers (violating the index-guard precondition). -/
def cmdShort : Command := ⟨0, 9, fun _ => false, fun _ => true⟩

/-- Sample command with a 2-byte response, always valid. -/
def cmdP : Command := ⟨0, 2, fun _ => true, fun _ => false⟩

/-- Two sample polling commands. -/
def cmdA : Command := ⟨100, 2, fun _ => true, fun _ => false⟩

/-- Second sample polling command. -/
def cmdB : Command := ⟨200, 2, fun _ => true, fun _ => false⟩

/-- Environment for a run where command 1 hits `BadConnectionError` and the
device would still answer command 2. -/
def envC1 : Env := ⟨true, .connOk, .connOk, [.badConn, .success [("b", 2)]]⟩

/-- Device model with the two sample commands. -/
def devC1 : DeviceModel := ⟨[cmdA, cmdB]⟩

/-- Environment for a run where command 1 succeeds and command 2 times out. -/
def envC8 : Env := ⟨true, .connOk, .connOk, [.success [("a", 1)], .respTimeout]⟩

/-! ## Theorems -/

/-- C3: once the pending result slot is settled (resolved, failed) or absent,
any further notification chunk is a no-op: the handler returns the state
unchanged (slot value, accumulator, and hence the eventual outcome) and
raises nothing. -/
theorem settled_slot_ignores_chunks (s : CoordState) (data : Bytes)
    (h : s.notify_future = none ∨ ∃ f, s.notify_future = some f ∧ f.done = true) :
    notification_handler s data = (s, none) := by
  rcases h with h | ⟨f, hf, hd⟩
  · simp [notification_handler, h]
  · simp [notification_handler, hf, hd]

/-- Witness for C3: a resolved slot ignores a further chunk. -/
theorem settled_slot_ignores_chunks_witness :
    notification_handler ⟨some (.resolvedBytes [1]), none, [1]⟩ [9] =
      (⟨some (.resolvedBytes [1]), none, [1]⟩, none) :=
  settled_slot_ignores_chunks ⟨some (.resolvedBytes [1]), none, [1]⟩ [9]
    (Or.inr ⟨.resolvedBytes [1], rfl, rfl⟩)

/-- C5: while the slot is pending, a chunk equal to one of the two
distinguished bad-connection sequences immediately settles the slot failed
with a bad-connection error, and the accumulator is left untouched (the
chunk is not appended). -/
theorem bad_connection_settles (s : CoordState) (f : FutureState) (data : Bytes)
    (hf : s.notify_future = some f) (hp : f.done = false)
    (hd : data = AT_NAME ∨ data = AT_ADV) :
    notification_handler s data =
      ({ s with notify_future := some (.failed .badConnection) }, none) := by
  unfold notification_handler
  rw [hf]
  rcases hd with hd | hd <;> subst hd <;> simp [hp]

/-- Witness for C5: an `AT+ADV?\r` chunk settles a pending slot with a
partially filled accumulator, leaving the accumulator as it was. -/
theorem bad_connection_settles_witness :
    notification_handler ⟨some .pending, none, [3]⟩ AT_ADV =
      (⟨some (.failed .badConnection), none, [3]⟩, none) :=
  bad_connection_settles ⟨some .pending, none, [3]⟩ .pending AT_ADV rfl rfl
    (Or.inr rfl)

/-- C9: with no recognised device model (`bluetti_device is None`), every
run returns `None` before any connection attempt, leaving the correlator
state (slot, active command, accumulator) unchanged and performing no
connect, no disconnect and no request. -/
theorem no_device_model_returns_none (env : Env) (s : CoordState) :
    async_update_data env none s =
      { result := .ok none, state := s, connect_attempts := 0, disconnects := 0,
        requests := 0 } := by
  by_cases h : env.device_available <;> simp [async_update_data, h]

/-- C7: whenever the run reaches the point where the client handle is
created (device available and device model recognised), `disconnect` is
called exactly once before returning, on every path through connect,
subscribe and the command loop. -/
theorem connection_closed_once (env : Env) (dev : DeviceModel) (s : CoordState)
    (h : env.device_available = true) :
    (async_update_data env (some dev) s).disconnects = 1 := by
  simp [async_update_data, h]

/-- Witness for C7: a run with a connect failure still disconnects once. -/
theorem connection_closed_once_witness :
    (async_update_data ⟨true, .connBleakErr, .connOk, []⟩ (some ⟨[]⟩)
      ⟨none, none, []⟩).disconnects = 1 :=
  connection_closed_once ⟨true, .connBleakErr, .connOk, []⟩ ⟨[]⟩
    ⟨none, none, []⟩ rfl

/-- C1 (divergence exhibited): when command 1 of 2 fails with
`BadConnectionError`, the loop's `except (BadConnectionError, BleakError)`
clause (line 115) merely logs and the loop continues: the run issues a
request for command 2 as well (2 requests in total) and even merges
command 2's fields into the returned snapshot, instead of stopping after
command 1 as the specification prescribes. -/
theorem transport_fault_does_not_stop_loop :
    (async_update_data envC1 (some devC1) ⟨none, none, []⟩).requests = 2 ∧
    (async_update_data envC1 (some devC1) ⟨none, none, []⟩).result =
      .ok (some [("b", 2)]) :=
  ⟨rfl, rfl⟩

/-- C10: the Modbus-exception branch reads `notify_response[2]` with no
length guard.  (1) Under the precondition that the active command's
exception predicate only accepts buffers of length at least 3, the handler
never raises; (2) without it, the access is out of bounds: a pending state
whose command accepts a 1-byte buffer as exception-shaped makes the handler
raise `IndexError` (with the chunk already appended). -/
theorem exception_frame_index_guard :
    (∀ cmd : Command,
       (∀ b : Bytes, cmd.is_exception_response b = true → 3 ≤ b.length) →
       ∀ (s : CoordState) (data : Bytes), s.current_command = some cmd →
         (notification_handler s data).2 = none) ∧
    notification_handler ⟨some .pending, some cmdShort, []⟩ [1] =
      (⟨some .pending, some cmdShort, [1]⟩, some .indexError) := by
  constructor
  · intro cmd hguard s data hcc
    cases hnf : s.notify_future with
    | none => simp [notification_handler, hnf]
    | some fut =>
      cases hdone : fut.done with
      | true => simp [notification_handler, hnf, hdone]
      | false =>
        by_cases hat : data = AT_NAME ∨ data = AT_ADV
        · simp [notification_handler, hnf, hdone, hat]
        · by_cases hlen : s.notify_response.length + data.length = cmd.response_size
          · by_cases hv : cmd.is_valid_response (s.notify_response ++ data) = true
            · simp [notification_handler, hnf, hdone, hat, hcc, hlen, hv]
            · simp [notification_handler, hnf, hdone, hat, hcc, hlen, hv]
          · by_cases hex : cmd.is_exception_response (s.notify_response ++ data) = true
            · have h3 : 3 ≤ (s.notify_response ++ data).length := hguard _ hex
              have h2 : 2 < (s.notify_response ++ data).length := by
                simp only [List.length_append] at h3 ⊢; omega
              obtain ⟨c, hc⟩ : ∃ c, (s.notify_response ++ data)[2]? = some c :=
                ⟨(s.notify_response ++ data)[2], List.getElem?_eq_getElem h2⟩
              simp [notification_handler, hnf, hdone, hat, hcc, hlen, hex, hc]
            · simp [notification_handler, hnf, hdone, hat, hcc, hlen, hex]
  · rfl

/-- Witness for C10: a command whose exception predicate demands 3 bytes
satisfies the precondition, so the handler returns without raising. -/
theorem exception_frame_index_guard_witness :
    (notification_handler ⟨some .pending, some cmdG, []⟩ [1, 2, 3]).2 = none :=
  exception_frame_index_guard.1 cmdG (fun b hb => of_decide_eq_true hb)
    ⟨some .pending, some cmdG, []⟩ [1, 2, 3] rfl

/-- C4: for a pending request with an active command, a chunk that is
appended (not a bad-connection sequence) drives exactly the source's case
split: (a) accumulator reaches the expected length — validation runs and
the slot settles resolved with the accumulated bytes or failed with a parse
error; (b) otherwise, an exception-shaped accumulator settles the slot
failed with a Modbus error carrying the command and the byte at index 2;
(c) otherwise the request stays pending with the chunk appended. -/
theorem pending_append_cases (s : CoordState) (cmd : Command) (data : Bytes)
    (hf : s.notify_future = some .pending)
    (hcc : s.current_command = some cmd)
    (h1 : data ≠ AT_NAME) (h2 : data ≠ AT_ADV) :
    ((s.notify_response ++ data).length = cmd.response_size →
       notification_handler s data =
         ({ s with notify_response := s.notify_response ++ data,
                   notify_future := some
                     (if cmd.is_valid_response (s.notify_response ++ data)
                      then .resolvedBytes (s.notify_response ++ data)
                      else .failed .parseError) }, none)) ∧
    (¬(s.notify_response ++ data).length = cmd.response_size →
       ∀ c, cmd.is_exception_response (s.notify_response ++ data) = true →
         (s.notify_response ++ data)[2]? = some c →
         notification_handler s data =
           ({ s with notify_response := s.notify_response ++ data,
                     notify_future := some (.failed (.modbusError cmd c)) }, none)) ∧
    (¬(s.notify_response ++ data).length = cmd.response_size →
       cmd.is_exception_response (s.notify_response ++ data) = false →
       notification_handler s data =
         ({ s with notify_response := s.notify_response ++ data }, none)) := by
  refine ⟨?_, ?_, ?_⟩
  · intro hlen
    rw [List.length_append] at hlen
    by_cases hv : cmd.is_valid_response (s.notify_response ++ data) = true
    · simp [notification_handler, FutureState.done, hf, hcc, h1, h2, hlen, hv]
    · simp [notification_handler, FutureState.done, hf, hcc, h1, h2, hlen, hv]
  · intro hlen c hex hc
    rw [List.length_append] at hlen
    simp [notification_handler, FutureState.done, hf, hcc, h1, h2, hlen, hex, hc]
  · intro hlen hex
    rw [List.length_append] at hlen
    simp [notification_handler, FutureState.done, hf, hcc, h1, h2, hlen, hex]

/-- Witness for C4: a full-length valid chunk resolves the slot with the
accumulated bytes. -/
theorem pending_append_cases_witness :
    notification_handler ⟨some .pending, some cmdP, []⟩ [1, 2] =
      (⟨some (.resolvedBytes [1, 2]), some cmdP, [1, 2]⟩, none) := by
  have h := (pending_append_cases ⟨some .pending, some cmdP, []⟩ cmdP [1, 2] rfl rfl
      (by decide) (by decide)).1 (by decide)
  simpa [cmdP] using h

/-- Every exception produced inside one command iteration is caught by the
per-command `except` clauses: the inner handler always yields a value. -/
theorem inner_catch_ok (r : Except PyExn Snapshot) (acc : Snapshot) :
    ∃ a, inner_catch r acc = .ok a := by
  cases r with
  | error e => cases e <;> exact ⟨acc, rfl⟩
  | ok a => exact ⟨a, rfl⟩

/-- The command loop either completes with a snapshot or is interrupted by
the cycle-level timeout; no other exception escapes it. -/
theorem run_commands_result (l : List (Command × PerCmd)) :
    ∀ (s : CoordState) (acc : Snapshot),
      (run_commands l s acc).2.2 = .error .timeoutError ∨
      ∃ a, (run_commands l s acc).2.2 = .ok a := by
  induction l with
  | nil => exact fun s acc => Or.inr ⟨acc, rfl⟩
  | cons hd tl ih =>
    intro s acc
    obtain ⟨cmd, out⟩ := hd
    cases out with
    | outerTimeout => exact Or.inl rfl
    | success fields => simpa [run_commands, inner_catch, command_body] using ih _ _
    | respTimeout => simpa [run_commands, inner_catch, command_body] using ih _ _
    | parseErr => simpa [run_commands, inner_catch, command_body] using ih _ _
    | modbusErr => simpa [run_commands, inner_catch, command_body] using ih _ _
    | badConn => simpa [run_commands, inner_catch, command_body] using ih _ _
    | bleakWriteErr => simpa [run_commands, inner_catch, command_body] using ih _ _

/-- The outer `try` body fails only with `TimeoutError` or `BleakError`;
otherwise it yields the accumulated snapshot. -/
theorem try_block_result (env : Env) (dev : DeviceModel) (s : CoordState) :
    (try_block env dev s).2.2 = .error .timeoutError ∨
    (try_block env dev s).2.2 = .error .bleakError ∨
    ∃ a, (try_block env dev s).2.2 = .ok a := by
  unfold try_block
  cases env.connect with
  | connOuterTimeout => exact Or.inl rfl
  | connBleakErr => exact Or.inr (Or.inl rfl)
  | connOk =>
    cases env.subscribe with
    | connOuterTimeout => exact Or.inl rfl
    | connBleakErr => exact Or.inr (Or.inl rfl)
    | connOk =>
      rcases run_commands_result (dev.polling_commands.zip env.outcomes) s []
        with h | h
      · exact Or.inl h
      · exact Or.inr (Or.inr h)

/-- The value the body and the `except` clauses produce is always a normal
return: within the handled taxonomy, the outer clauses cover every
exception the body can raise.  (The cleanup `disconnect` can still replace
this value; see `async_update_data_total`.) -/
theorem update_result_ok (env : Env) (bdev : Option DeviceModel)
    (s : CoordState) :
    ∃ o, (async_update_data env bdev s).result = .ok o := by
  by_cases h : env.device_available = false
  · exact ⟨none, by simp [async_update_data, h]⟩
  · cases bdev with
    | none => exact ⟨none, by simp [async_update_data, h]⟩
    | some dev =>
      rcases try_block_result env dev s with ht | ht | ⟨a, ht⟩
      · exact ⟨none, by simp [async_update_data, h, ht]⟩
      · exact ⟨none, by simp [async_update_data, h, ht]⟩
      · exact ⟨some a, by simp [async_update_data, h, ht]⟩

/-- Counterexample to C6 as stated: a run that reaches the client and whose
cleanup `disconnect` raises does not return — the `BleakError` from the
`finally` (line 124) escapes to the caller, even though the whole cycle
body succeeded. -/
theorem cleanup_failure_escapes :
    (async_update_data_total ⟨true, .connOk, .connOk, []⟩ false (some ⟨[]⟩)
      ⟨none, none, []⟩).result = .error .bleakError := rfl

/-- C6 (amended): provided the cleanup `disconnect` call does not raise,
the update run never raises to its caller: for every environment, device
model and correlator state, every exception of the handled taxonomy is
caught, and the run returns a value (None or a possibly-partial
snapshot). -/
theorem run_cycle_never_raises_when_cleanup_ok (env : Env)
    (bdev : Option DeviceModel) (s : CoordState) :
    ∃ o, (async_update_data_total env true bdev s).result = .ok o := by
  obtain ⟨o, ho⟩ := update_result_ok env bdev s
  exact ⟨o, by simpa [async_update_data_total] using ho⟩

/-- When no iteration is interrupted by the cycle-level timeout, the loop
returns exactly the fields merged from the successful commands. -/
theorem run_commands_ok (l : List (Command × PerCmd)) :
    ∀ (s : CoordState) (acc : Snapshot),
      (∀ p ∈ l, p.2 ≠ PerCmd.outerTimeout) →
      (run_commands l s acc).2.2 = .ok (snapOf (l.map Prod.snd) acc) := by
  induction l with
  | nil => exact fun s acc h => rfl
  | cons hd tl ih =>
    intro s acc h
    obtain ⟨cmd, out⟩ := hd
    have hout : out ≠ PerCmd.outerTimeout := h (cmd, out) (List.mem_cons_self _ _)
    have htl : ∀ p ∈ tl, p.2 ≠ PerCmd.outerTimeout :=
      fun p hp => h p (List.mem_cons_of_mem _ hp)
    cases out with
    | outerTimeout => exact absurd rfl hout
    | success fields =>
      simpa [run_commands, inner_catch, command_body, snapOf] using ih _ _ htl
    | respTimeout =>
      simpa [run_commands, inner_catch, command_body, snapOf] using ih _ _ htl
    | parseErr =>
      simpa [run_commands, inner_catch, command_body, snapOf] using ih _ _ htl
    | modbusErr =>
      simpa [run_commands, inner_catch, command_body, snapOf] using ih _ _ htl
    | badConn =>
      simpa [run_commands, inner_catch, command_body, snapOf] using ih _ _ htl
    | bleakWriteErr =>
      simpa [run_commands, inner_catch, command_body, snapOf] using ih _ _ htl

/-- C8: with the connection established and some command failing with a
recoverable error (response timeout, parse error, or Modbus rejection), the
loop continues past the failure, the failed command contributes no fields,
and the run returns the partial snapshot merged from the successful
commands — not None. -/
theorem partial_snapshot_on_recoverable_errors (env : Env) (dev : DeviceModel)
    (s : CoordState)
    (hav : env.device_available = true)
    (hc : env.connect = .connOk) (hs : env.subscribe = .connOk)
    (hnt : ∀ p ∈ dev.polling_commands.zip env.outcomes, p.2 ≠ PerCmd.outerTimeout)
    (hfail : ∃ p ∈ dev.polling_commands.zip env.outcomes,
      p.2 = PerCmd.respTimeout ∨ p.2 = PerCmd.parseErr ∨ p.2 = PerCmd.modbusErr) :
    (async_update_data env (some dev) s).result =
      .ok (some (snapOf ((dev.polling_commands.zip env.outcomes).map Prod.snd) [])) := by
  have hr := run_commands_ok (dev.polling_commands.zip env.outcomes) s [] hnt
  simp [async_update_data, hav, try_block, hc, hs, hr]

/-- Witness for C8: command 1 succeeds, command 2 times out; the run
returns the partial snapshot with command 1's field. -/
theorem partial_snapshot_on_recoverable_errors_witness :
    (async_update_data envC8 (some devC1) ⟨none, none, []⟩).result =
      .ok (some [("a", 1)]) := by
  rw [partial_snapshot_on_recoverable_errors envC8 devC1 ⟨none, none, []⟩
    rfl rfl rfl (by decide) (by decide)]
  rfl

/-- One handler call either leaves the accumulator untouched or appends
exactly the incoming chunk. -/
theorem handler_response_cases (s : CoordState) (data : Bytes) :
    (notification_handler s data).1.notify_response = s.notify_response ∨
    (notification_handler s data).1.notify_response = s.notify_response ++ data := by
  rcases hnf : s.notify_future with _ | fut
  · exact Or.inl (by simp [notification_handler, hnf])
  · cases hdone : fut.done with
    | true => exact Or.inl (by simp [notification_handler, hnf, hdone])
    | false =>
      by_cases hat : data = AT_NAME ∨ data = AT_ADV
      · exact Or.inl (by simp [notification_handler, hnf, hdone, hat])
      · rcases hcc : s.current_command with _ | cmd
        · exact Or.inr (by simp [notification_handler, hnf, hdone, hat, hcc])
        · by_cases hlen : s.notify_response.length + data.length = cmd.response_size
          · by_cases hv : cmd.is_valid_response (s.notify_response ++ data) = true
            · exact Or.inr
                (by simp [notification_handler, hnf, hdone, hat, hcc, hlen, hv])
            · exact Or.inr
                (by simp [notification_handler, hnf, hdone, hat, hcc, hlen, hv])
          · by_cases hex : cmd.is_exception_response (s.notify_response ++ data) = true
            · rcases hg : (s.notify_response ++ data)[2]? with _ | c
              · exact Or.inr (by
                  simp [notification_handler, hnf, hdone, hat, hcc, hlen, hex, hg])
              · exact Or.inr (by
                  simp [notification_handler, hnf, hdone, hat, hcc, hlen, hex, hg])
            · exact Or.inr
                (by simp [notification_handler, hnf, hdone, hat, hcc, hlen, hex])

/-- Feeding chunks grows the accumulator by at most the bytes delivered. -/
theorem feedChunks_length (chunks : List Bytes) :
    ∀ s : CoordState,
      (feedChunks s chunks).notify_response.length ≤
        s.notify_response.length + chunks.flatten.length := by
  induction chunks with
  | nil => intro s; simp [feedChunks]
  | cons c tl ih =>
    intro s
    have hstep : feedChunks s (c :: tl) =
        feedChunks (notification_handler s c).1 tl := rfl
    have h2 := ih (notification_handler s c).1
    rcases handler_response_cases s c with h1 | h1 <;>
      rw [hstep] <;> rw [h1] at h2 <;>
      simp only [List.flatten_cons, List.length_append] at h2 ⊢ <;> omega

/-- The bytes of a prefix of the chunk sequence are at most all the bytes. -/
theorem flatten_take_length (chunks : List Bytes) (n : Nat) :
    (chunks.take n).flatten.length ≤ chunks.flatten.length := by
  conv_rhs => rw [← List.take_append_drop n chunks]
  rw [List.flatten_append, List.length_append]
  omega

/-- Delivering a genuine response of exactly the expected length, in chunks
none of which is empty or a bad-connection sequence, to a command whose
exception predicate rejects every proper prefix of the response, always
ends settled with the outcome determined by checksum validation alone. -/
theorem notification_run_exact (cmd : Command) (total : Bytes)
    (hexc : ∀ k, k < cmd.response_size →
      cmd.is_exception_response (total.take k) = false)
    (hsize : total.length = cmd.response_size) :
    ∀ (chunks : List Bytes) (buf : Bytes),
      buf ++ chunks.flatten = total →
      buf.length < cmd.response_size →
      (∀ c ∈ chunks, c ≠ [] ∧ c ≠ AT_NAME ∧ c ≠ AT_ADV) →
      feedChunks ⟨some .pending, some cmd, buf⟩ chunks =
        ⟨some (if cmd.is_valid_response total then .resolvedBytes total
               else .failed .parseError), some cmd, total⟩ := by
  intro chunks
  induction chunks with
  | nil =>
    intro buf htot hlt _
    exfalso
    simp only [List.flatten_nil, List.append_nil] at htot
    rw [htot, hsize] at hlt
    exact Nat.lt_irrefl _ hlt
  | cons c tl ih =>
    intro buf htot hlt hc
    obtain ⟨hcne, hcn1, hcn2⟩ := hc c (List.mem_cons_self _ _)
    have hjoin : buf ++ (c ++ tl.flatten) = total := by simpa using htot
    have hlensum : buf.length + (c.length + tl.flatten.length) = total.length := by
      have h := congrArg List.length hjoin
      simpa [List.length_append] using h
    have hstep : feedChunks ⟨some .pending, some cmd, buf⟩ (c :: tl) =
        feedChunks (notification_handler ⟨some .pending, some cmd, buf⟩ c).1 tl := rfl
    rw [hstep]
    by_cases hlen : buf.length + c.length = cmd.response_size
    · have hjl : tl.flatten.length = 0 := by omega
      have htl0 : tl.flatten = [] := List.length_eq_zero.mp hjl
      have htl : tl = [] := by
        cases tl with
        | nil => rfl
        | cons d ds =>
          obtain ⟨hdne, _, _⟩ :=
            hc d (List.mem_cons_of_mem _ (List.mem_cons_self _ _))
          have hd0 : d ++ ds.flatten = [] := by simpa using htl0
          exact absurd (List.append_eq_nil.mp hd0).1 hdne
      subst htl
      have hbc : buf ++ c = total := by simpa using hjoin
      have hhandler : (notification_handler ⟨some .pending, some cmd, buf⟩ c).1 =
          ⟨some (if cmd.is_valid_response total then .resolvedBytes total
                 else .failed .parseError), some cmd, total⟩ := by
        by_cases hv : cmd.is_valid_response total = true
        · simp [notification_handler, FutureState.done, hcn1, hcn2, hbc, hlen,
            hsize, hv]
        · simp [notification_handler, FutureState.done, hcn1, hcn2, hbc, hlen,
            hsize, hv]
      rw [hhandler]
      rfl
    · have hlt2 : buf.length + c.length < cmd.response_size := by omega
      have hpre : total.take (buf.length + c.length) = buf ++ c := by
        rw [← hjoin, ← List.append_assoc, ← List.length_append]
        exact List.take_left _ _
      have hex : cmd.is_exception_response (buf ++ c) = false := by
        have h := hexc (buf.length + c.length) hlt2
        rwa [hpre] at h
      have hhandler : (notification_handler ⟨some .pending, some cmd, buf⟩ c).1 =
          ⟨some .pending, some cmd, buf ++ c⟩ := by
        simp [notification_handler, FutureState.done, hcn1, hcn2, hlen, hex]
      rw [hhandler]
      exact ih (buf ++ c)
        (by rw [List.append_assoc]; exact hjoin)
        (by simpa [List.length_append] using hlt2)
        (fun d hd => hc d (List.mem_cons_of_mem _ hd))

/-- C2 (amended): for any chunking of a total byte sequence of exactly the
command's expected length, (1) the accumulator never exceeds the expected
length at any point of the delivery; and (2) provided no chunk is empty or
a bad-connection sequence and the command's exception predicate rejects
every proper prefix of the total, the final settled outcome is the one
determined by checksum validation of the total — independent of the
chunking. -/
theorem accumulator_bound_and_chunking (cmd : Command) (chunks : List Bytes)
    (hsize : chunks.flatten.length = cmd.response_size) :
    (∀ n, (feedChunks (freshState cmd) (chunks.take n)).notify_response.length ≤
        cmd.response_size) ∧
    (0 < cmd.response_size →
      (∀ c ∈ chunks, c ≠ [] ∧ c ≠ AT_NAME ∧ c ≠ AT_ADV) →
      (∀ k, k < cmd.response_size →
        cmd.is_exception_response (chunks.flatten.take k) = false) →
      feedChunks (freshState cmd) chunks =
        ⟨some (if cmd.is_valid_response chunks.flatten then .resolvedBytes chunks.flatten
               else .failed .parseError), some cmd, chunks.flatten⟩) := by
  constructor
  · intro n
    have h := feedChunks_length (chunks.take n) (freshState cmd)
    have h2 := flatten_take_length chunks n
    simp only [freshState, List.length_nil, Nat.zero_add] at h ⊢
    omega
  · intro hpos hchunks hexc
    have h := notification_run_exact cmd chunks.flatten hexc hsize chunks []
      (by simp) (by simpa using hpos) hchunks
    simpa [freshState] using h

/-- Witness for C2: a 4-byte valid response delivered as 2+2 bytes resolves
with the full response. -/
theorem accumulator_bound_and_chunking_witness :
    feedChunks (freshState cmdW) [[1, 2], [3, 4]] =
      ⟨some (.resolvedBytes [1, 2, 3, 4]), some cmdW, [1, 2, 3, 4]⟩ := by
  have h := (accumulator_bound_and_chunking cmdW [[1, 2], [3, 4]] (by decide)).2
    (by decide) (by decide) (by decide)
  simpa [cmdW] using h

/-- Counterexample to C2 as stated: the same 4-byte total delivered whole
resolves, but delivered as 3+1 bytes the exception-frame check fires on the
3-byte prefix and the slot settles failed — the settled outcome does depend
on the chunking. -/
theorem chunking_changes_outcome :
    (([[5, 6, 7, 8]] : List Bytes).flatten = ([[5, 6, 7], [8]] : List Bytes).flatten) ∧
    (feedChunks (freshState cmdX) [[5, 6, 7, 8]]).notify_future =
      some (.resolvedBytes [5, 6, 7, 8]) ∧
    (feedChunks (freshState cmdX) [[5, 6, 7], [8]]).notify_future =
      some (.failed (.modbusError cmdX 7)) ∧
    (feedChunks (freshState cmdX) [[5, 6, 7, 8]]).notify_future ≠
      (feedChunks (freshState cmdX) [[5, 6, 7], [8]]).notify_future := by
  refine ⟨rfl, rfl, rfl, ?_⟩
  intro h
  rw [show (feedChunks (freshState cmdX) [[5, 6, 7, 8]]).notify_future =
        some (FutureState.resolvedBytes [5, 6, 7, 8]) from rfl,
      show (feedChunks (freshState cmdX) [[5, 6, 7], [8]]).notify_future =
        some (FutureState.failed (.modbusError cmdX 7)) from rfl] at h
  exact FutureState.noConfusion (Option.some.inj h)

end BluettiBT
